import Mathlib

/-!
Verification of the connection-validation engine of the NASA-space-apps-challenge
habitat builder.

The embedding follows the JavaScript sources:
* `src/src/utils/connectionValidator.js` — geometry kernel, `canConnect`,
  `checkModuleCollision`, `findPotentialConnections`, `validateHabitat`;
* `src/src/data/connectionTypes.js` — `connectionRules`, `connectionConstraints`;
* `src/src/data/moduleDefinitions.js` — the static module catalog;
* the habitat context reducer — `calculateStatistics`, `habitatReducer`, `addModule`.

JavaScript numbers are modelled as real numbers; reason/message strings that only
embed a measured value are modelled as inductive constructors carrying that value;
display-only fields (name, description, color) and creation timestamps are omitted
because no operation modelled here reads them.
-/

namespace HabitatBuilder

open Classical

/-- A 3-vector, the `[x, y, z]` arrays of the source. -/
structure Vec3 where
  x : ℝ
  y : ℝ
  z : ℝ

/-- Source `distance3D`: Euclidean distance between two 3D points. -/
noncomputable def distance3D (point1 point2 : Vec3) : ℝ :=
  Real.sqrt ((point1.x - point2.x) * (point1.x - point2.x) +
    (point1.y - point2.y) * (point1.y - point2.y) +
    (point1.z - point2.z) * (point1.z - point2.z))

/-- Source `dotProduct` of two 3D vectors. -/
def dotProduct (vec1 vec2 : Vec3) : ℝ :=
  vec1.x * vec2.x + vec1.y * vec2.y + vec1.z * vec2.z

/-- Source `normalize`: scale a vector to unit length, returning the zero vector
for zero-length input. -/
noncomputable def normalize (vector : Vec3) : Vec3 :=
  let length := Real.sqrt (vector.x * vector.x + vector.y * vector.y + vector.z * vector.z)
  if length = 0 then ⟨0, 0, 0⟩
  else ⟨vector.x / length, vector.y / length, vector.z / length⟩

/-- Source `transformPoint`: rotate a local point around the Y axis by the Y
component of `rotation`, then translate by `position`. -/
noncomputable def transformPoint (localPoint : Vec3) (position rotation : Vec3) : Vec3 :=
  let c := Real.cos rotation.y
  let s := Real.sin rotation.y
  ⟨localPoint.x * c - localPoint.z * s + position.x,
   localPoint.y + position.y,
   localPoint.x * s + localPoint.z * c + position.z⟩

/-- Source `transformNormal`: rotate a local normal around the Y axis and
renormalize. -/
noncomputable def transformNormal (localNormal : Vec3) (rotation : Vec3) : Vec3 :=
  let c := Real.cos rotation.y
  let s := Real.sin rotation.y
  normalize ⟨localNormal.x * c - localNormal.z * s,
             localNormal.y,
             localNormal.x * s + localNormal.z * c⟩

/-- Source `connectionRules` object from `connectionTypes.js`; the JavaScript
lookup `connectionRules[type] || []` yields `[]` for any key outside the table. -/
def connectionRules (t : String) : List String :=
  if t = "structural" then ["structural"]
  else if t = "utility" then ["structural", "utility"]
  else if t = "external" then []
  else []

/-- Source `connectionConstraints.MAX_CONNECTION_DISTANCE` (meters). -/
noncomputable def MAX_CONNECTION_DISTANCE : ℝ := 0.5

/-- Source `connectionConstraints.MIN_ALIGNMENT_ANGLE` (radians), documented in
the data file as 144 degrees.  `canConnect` never reads this constant. -/
noncomputable def MIN_ALIGNMENT_ANGLE : ℝ := Real.pi * 0.8

/-- Source `connectionConstraints.COLLISION_BUFFER` (meters). -/
noncomputable def COLLISION_BUFFER : ℝ := 0.2

/-- A world-space connection point as produced by `getWorldConnectionPoints`:
the catalog point spread together with `worldPosition`, `worldNormal` and
`moduleId`. -/
structure WorldPoint where
  id : String
  type : String
  position : Vec3
  normal : Vec3
  worldPosition : Vec3
  worldNormal : Vec3
  moduleId : String

/-- The failure reasons of `canConnect`; each constructor carries the measured
value the source embeds in its message string. -/
inductive ConnectReason where
  | incompatibleTypes (type1 type2 : String)
  | tooFar (dist : ℝ)
  | misaligned (alignment : ℝ)
  | valid

/-- The `{ canConnect, reason }` record returned by `canConnect`. -/
structure ConnectDecision where
  canConnect : Bool
  reason : ConnectReason

/-- Source `canConnect`: type compatibility (keyed on the type of the first
point), then the distance constraint, then the hard-coded normal-alignment
threshold `-0.7`. -/
noncomputable def canConnect (point1 point2 : WorldPoint) : ConnectDecision :=
  let type1Rules := connectionRules point1.type
  if point2.type ∉ type1Rules then
    ⟨false, ConnectReason.incompatibleTypes point1.type point2.type⟩
  else
    let dist := distance3D point1.worldPosition point2.worldPosition
    if dist > MAX_CONNECTION_DISTANCE then
      ⟨false, ConnectReason.tooFar dist⟩
    else
      let alignment := dotProduct point1.worldNormal point2.worldNormal
      if alignment > -0.7 then
        ⟨false, ConnectReason.misaligned alignment⟩
      else
        ⟨true, ConnectReason.valid⟩

/-- Dimensions record of a catalog entry. -/
structure Dimensions where
  width : ℝ
  height : ℝ
  depth : ℝ

/-- A connection-point entry of a catalog module definition. -/
structure ConnectionPointDef where
  id : String
  position : Vec3
  normal : Vec3
  type : String

/-- A catalog entry from `moduleDefinitions.js` (display-only fields omitted). -/
structure ModuleDefinition where
  id : String
  dimensions : Dimensions
  mass : ℝ
  crewCapacity : ℝ
  powerConsumption : ℝ
  powerGeneration : ℝ
  connectionPoints : List ConnectionPointDef
  cost : ℝ

/-- Catalog entry `central-hub`. -/
noncomputable def centralHub : ModuleDefinition where
  id := "central-hub"
  dimensions := ⟨4.2, 4.2, 4.2⟩
  mass := 15000
  crewCapacity := 0
  powerConsumption := 500
  powerGeneration := 0
  connectionPoints :=
    [⟨"north", ⟨0, 0, 2.1⟩, ⟨0, 0, 1⟩, "structural"⟩,
     ⟨"south", ⟨0, 0, -2.1⟩, ⟨0, 0, -1⟩, "structural"⟩,
     ⟨"east", ⟨2.1, 0, 0⟩, ⟨1, 0, 0⟩, "structural"⟩,
     ⟨"west", ⟨-2.1, 0, 0⟩, ⟨-1, 0, 0⟩, "structural"⟩,
     ⟨"up", ⟨0, 2.1, 0⟩, ⟨0, 1, 0⟩, "structural"⟩,
     ⟨"down", ⟨0, -2.1, 0⟩, ⟨0, -1, 0⟩, "structural"⟩]
  cost := 25000000

/-- Catalog entry `living-quarters`. -/
noncomputable def livingQuarters : ModuleDefinition where
  id := "living-quarters"
  dimensions := ⟨4.2, 4.2, 8.5⟩
  mass := 12000
  crewCapacity := 4
  powerConsumption := 800
  powerGeneration := 0
  connectionPoints :=
    [⟨"front", ⟨0, 0, 4.25⟩, ⟨0, 0, 1⟩, "structural"⟩,
     ⟨"back", ⟨0, 0, -4.25⟩, ⟨0, 0, -1⟩, "structural"⟩]
  cost := 18000000

/-- Catalog entry `laboratory`. -/
noncomputable def laboratory : ModuleDefinition where
  id := "laboratory"
  dimensions := ⟨4.2, 4.2, 10.7⟩
  mass := 14000
  crewCapacity := 2
  powerConsumption := 1500
  powerGeneration := 0
  connectionPoints :=
    [⟨"front", ⟨0, 0, 5.35⟩, ⟨0, 0, 1⟩, "structural"⟩,
     ⟨"back", ⟨0, 0, -5.35⟩, ⟨0, 0, -1⟩, "structural"⟩,
     ⟨"utility", ⟨2.1, 0, 0⟩, ⟨1, 0, 0⟩, "utility"⟩]
  cost := 35000000

/-- Catalog entry `airlock`. -/
noncomputable def airlock : ModuleDefinition where
  id := "airlock"
  dimensions := ⟨4.2, 4.2, 3.0⟩
  mass := 8000
  crewCapacity := 2
  powerConsumption := 300
  powerGeneration := 0
  connectionPoints :=
    [⟨"inner", ⟨0, 0, -1.5⟩, ⟨0, 0, -1⟩, "structural"⟩,
     ⟨"outer", ⟨0, 0, 1.5⟩, ⟨0, 0, 1⟩, "external"⟩]
  cost := 12000000

/-- Catalog entry `storage`. -/
noncomputable def storage : ModuleDefinition where
  id := "storage"
  dimensions := ⟨4.2, 4.2, 6.0⟩
  mass := 5000
  crewCapacity := 0
  powerConsumption := 100
  powerGeneration := 0
  connectionPoints :=
    [⟨"front", ⟨0, 0, 3.0⟩, ⟨0, 0, 1⟩, "structural"⟩,
     ⟨"back", ⟨0, 0, -3.0⟩, ⟨0, 0, -1⟩, "structural"⟩]
  cost := 8000000

/-- Catalog entry `recreation`. -/
noncomputable def recreation : ModuleDefinition where
  id := "recreation"
  dimensions := ⟨6.0, 6.0, 8.0⟩
  mass := 10000
  crewCapacity := 8
  powerConsumption := 600
  powerGeneration := 0
  connectionPoints :=
    [⟨"front", ⟨0, 0, 4.0⟩, ⟨0, 0, 1⟩, "structural"⟩,
     ⟨"back", ⟨0, 0, -4.0⟩, ⟨0, 0, -1⟩, "structural"⟩]
  cost := 15000000

/-- The source `moduleDefinitions` catalog array. -/
noncomputable def moduleDefinitions : List ModuleDefinition :=
  [centralHub, livingQuarters, laboratory, airlock, storage, recreation]

/-- A placed module instance (timestamp omitted, nothing modelled reads it). -/
structure ModuleInstance where
  id : String
  definitionId : String
  position : Vec3
  rotation : Vec3

/-- Source `getWorldConnectionPoints`: look the definition up by id and map each
catalog connection point to world space; `[]` when the definition is unknown. -/
noncomputable def getWorldConnectionPoints (module : ModuleInstance) : List WorldPoint :=
  match moduleDefinitions.find? (fun d => d.id == module.definitionId) with
  | none => []
  | some definition =>
      definition.connectionPoints.map fun point =>
        { id := point.id
          type := point.type
          position := point.position
          normal := point.normal
          worldPosition := transformPoint point.position module.position module.rotation
          worldNormal := transformNormal point.normal module.rotation
          moduleId := module.id }

/-- Source `checkModuleCollision`: axis-aligned bounding-box overlap inflated by
the collision buffer; the JavaScript `false` on a failed definition lookup is
modelled as `False`. -/
noncomputable def checkModuleCollision (module1 module2 : ModuleInstance) : Prop :=
  match moduleDefinitions.find? (fun d => d.id == module1.definitionId),
        moduleDefinitions.find? (fun d => d.id == module2.definitionId) with
  | some def1, some def2 =>
      |module1.position.x - module2.position.x| <
          (def1.dimensions.width + def2.dimensions.width) / 2 + COLLISION_BUFFER ∧
      |module1.position.y - module2.position.y| <
          (def1.dimensions.height + def2.dimensions.height) / 2 + COLLISION_BUFFER ∧
      |module1.position.z - module2.position.z| <
          (def1.dimensions.depth + def2.dimensions.depth) / 2 + COLLISION_BUFFER
  | _, _ => False

/-- An entry of the array built by `findPotentialConnections`. -/
structure PotentialConnection where
  targetPoint : WorldPoint
  existingPoint : WorldPoint
  existingModule : ModuleInstance
  distance : ℝ

/-- The candidate array `potentialConnections` exactly as the nested `forEach`
loops of `findPotentialConnections` build it, before sorting: existing modules
in list order, target points in catalog order, existing points in catalog
order, keeping the pairs accepted by `canConnect`. -/
noncomputable def potentialConnectionCandidates (targetModule : ModuleInstance)
    (targetPosition : Vec3) (existingModules : List ModuleInstance) :
    List PotentialConnection :=
  let tempModule := { targetModule with position := targetPosition }
  let targetPoints := getWorldConnectionPoints tempModule
  existingModules.flatMap fun existingModule =>
    if existingModule.id = targetModule.id then []
    else
      let existingPoints := getWorldConnectionPoints existingModule
      targetPoints.flatMap fun targetPoint =>
        existingPoints.filterMap fun existingPoint =>
          if (canConnect targetPoint existingPoint).canConnect then
            some { targetPoint := targetPoint
                   existingPoint := existingPoint
                   existingModule := existingModule
                   distance := distance3D targetPoint.worldPosition existingPoint.worldPosition }
          else none

/-- Source `findPotentialConnections`: the candidates sorted ascending by
distance.  `Array.prototype.sort` is stable (ECMAScript 2019), so it is
modelled by the stable `List.mergeSort`. -/
noncomputable def findPotentialConnections (targetModule : ModuleInstance)
    (targetPosition : Vec3) (existingModules : List ModuleInstance) :
    List PotentialConnection :=
  (potentialConnectionCandidates targetModule targetPosition existingModules).mergeSort
    (fun a b => a.distance ≤ b.distance)

/-- A stored connection between two module connection points (timestamp
omitted). -/
structure Connection where
  id : String
  moduleId1 : String
  pointId1 : String
  moduleId2 : String
  pointId2 : String

/-- The entries `validateHabitat` pushes onto its `errors` array.  In the
source, `collision` carries the two module ids; `invalidConnectionModule` is
the `invalid_connection` error with message `Connection references non-existent
module`; `invalidConnectionPoint` is the `invalid_connection_point` error;
`invalidConnectionRejected` is the `invalid_connection` error whose message is
the `canConnect` failure reason. -/
inductive ValidationError where
  | collision (moduleId1 moduleId2 : String)
  | invalidConnectionModule (connectionId : String)
  | invalidConnectionPoint (connectionId : String)
  | invalidConnectionRejected (connectionId : String) (reason : ConnectReason)

/-- The single warning shape `validateHabitat` can push: the
`disconnected_modules` warning, whose message embeds only the count
`modules.length - connected.size`. -/
inductive ValidationWarning where
  | disconnectedModules (count : Nat)

/-- The collision errors produced by the nested `for` loops of
`validateHabitat` over all index pairs `i < j`, in loop order. -/
noncomputable def collisionErrors : List ModuleInstance → List ValidationError
  | [] => []
  | module1 :: rest =>
      (rest.filterMap fun module2 =>
        if checkModuleCollision module1 module2 then
          some (ValidationError.collision module1.id module2.id)
        else none)
      ++ collisionErrors rest

/-- The at-most-one error the `connections.forEach` body of `validateHabitat`
pushes for one connection: missing module, then missing point, then a failed
`canConnect`. -/
noncomputable def connectionError (modules : List ModuleInstance)
    (connection : Connection) : Option ValidationError :=
  match modules.find? (fun m => m.id == connection.moduleId1),
        modules.find? (fun m => m.id == connection.moduleId2) with
  | some module1, some module2 =>
      let points1 := getWorldConnectionPoints module1
      let points2 := getWorldConnectionPoints module2
      match points1.find? (fun p => p.id == connection.pointId1),
            points2.find? (fun p => p.id == connection.pointId2) with
      | some point1, some point2 =>
          let validation := canConnect point1 point2
          if validation.canConnect then none
          else some (ValidationError.invalidConnectionRejected connection.id validation.reason)
      | _, _ => some (ValidationError.invalidConnectionPoint connection.id)
  | _, _ => some (ValidationError.invalidConnectionModule connection.id)

/-- The candidate ids the `connections.forEach` inside the reachability loop
pushes onto `toVisit` for the current id, given the current `connected` set. -/
def dfsNeighbors (connections : List Connection) (connected : List String)
    (currentId : String) : List String :=
  connections.filterMap fun c =>
    if c.moduleId1 = currentId ∧ c.moduleId2 ∉ connected then some c.moduleId2
    else if c.moduleId2 = currentId ∧ c.moduleId1 ∉ connected then some c.moduleId1
    else none

/-- Every id that can ever enter `toVisit`: the module ids and the endpoint ids
of the connections.  Used as the termination measure of the walk. -/
def nodeUniverse (modules : List ModuleInstance) (connections : List Connection) :
    List String :=
  modules.map (fun m => m.id) ++
    connections.flatMap (fun c => [c.moduleId1, c.moduleId2])

/-- The `while (toVisit.length > 0)` reachability walk of `validateHabitat`.
`toVisit` is held top-first (the JavaScript array pops from the end, so pushes
are appended reversed), and `connected` collects the visited ids. -/
def dfsWalk (connections : List Connection) (U : List String)
    (hconn : ∀ c ∈ connections, c.moduleId1 ∈ U ∧ c.moduleId2 ∈ U)
    (connected : List String) (toVisit : List String)
    (hU : ∀ s ∈ toVisit, s ∈ U) : List String :=
  match toVisit with
  | [] => connected
  | currentId :: rest =>
      if currentId ∈ connected then
        dfsWalk connections U hconn connected rest
          (fun s hs => hU s (List.mem_cons_of_mem _ hs))
      else
        dfsWalk connections U hconn (currentId :: connected)
          ((dfsNeighbors connections (currentId :: connected) currentId).reverse ++ rest)
          (by
            intro s hs
            rcases List.mem_append.mp hs with hs | hs
            · rcases List.mem_filterMap.mp (List.mem_reverse.mp hs) with ⟨c, hc, hcs⟩
              have hU2 : s = c.moduleId2 ∨ s = c.moduleId1 := by
                by_cases h1 : c.moduleId1 = currentId ∧ c.moduleId2 ∉ currentId :: connected
                · simp only [dfsNeighbors, if_pos h1, Option.some.injEq] at hcs
                  exact Or.inl hcs.symm
                · by_cases h2 : c.moduleId2 = currentId ∧ c.moduleId1 ∉ currentId :: connected
                  · simp only [dfsNeighbors, if_neg h1, if_pos h2, Option.some.injEq] at hcs
                    exact Or.inr hcs.symm
                  · simp only [dfsNeighbors, if_neg h1, if_neg h2] at hcs
                    exact absurd hcs (by simp)
              rcases hU2 with h | h <;> subst h
              · exact (hconn c hc).2
              · exact (hconn c hc).1
            · exact hU s (List.mem_cons_of_mem _ hs))
  termination_by ((U.filter (fun s => s ∉ connected)).length, toVisit.length)
  decreasing_by
  · exact Prod.Lex.right _ (Nat.lt_succ_self _)
  · apply Prod.Lex.left
    have hcur : currentId ∈ U := hU currentId (List.mem_cons_self _ _)
    rename_i hmem
    rcases List.append_of_mem hcur with ⟨s₁, s₂, rfl⟩
    simp only [List.filter_append, List.length_append, List.filter_cons]
    have hkeep : (decide (currentId ∉ connected)) = true := by
      simpa using hmem
    have hdrop : (decide (currentId ∉ currentId :: connected)) = false := by
      simp
    rw [hkeep, hdrop]
    simp only [List.length_cons]
    have mono : ∀ l : List String,
        (l.filter (fun s => s ∉ currentId :: connected)).length ≤
          (l.filter (fun s => s ∉ connected)).length := by
      intro l
      simp only [← List.countP_eq_length_filter]
      apply List.countP_mono_left
      intro x _ hx
      simp only [decide_eq_true_eq, List.mem_cons, not_or] at hx ⊢
      exact hx.2
    calc (s₁.filter (fun s => s ∉ currentId :: connected)).length +
          (s₂.filter (fun s => s ∉ currentId :: connected)).length
        ≤ (s₁.filter (fun s => s ∉ connected)).length +
          (s₂.filter (fun s => s ∉ connected)).length :=
          Nat.add_le_add (mono s₁) (mono s₂)
      _ < (s₁.filter (fun s => s ∉ connected)).length +
          ((s₂.filter (fun s => s ∉ connected)).length + 1) := by omega

/-- Endpoints of stored connections belong to the node universe. -/
theorem conn_mem_nodeUniverse (modules : List ModuleInstance)
    (connections : List Connection) :
    ∀ c ∈ connections, c.moduleId1 ∈ nodeUniverse modules connections ∧
      c.moduleId2 ∈ nodeUniverse modules connections := by
  intro c hc
  constructor <;>
    exact List.mem_append_right _ (List.mem_flatMap.mpr ⟨c, hc, by simp⟩)

/-- The `connected` set computed by the reachability section of
`validateHabitat`, starting from the first module in insertion order. -/
def connectedSet (modules : List ModuleInstance) (m0 : ModuleInstance)
    (h0 : m0 ∈ modules) (connections : List Connection) : List String :=
  dfsWalk connections (nodeUniverse modules connections)
    (conn_mem_nodeUniverse modules connections) [] [m0.id]
    (by
      intro s hs
      simp only [List.mem_singleton] at hs
      subst hs
      exact List.mem_append_left _ (List.mem_map_of_mem _ h0))

/-- The warnings list of `validateHabitat`: the reachability check runs only
when `modules.length > 1`, and pushes a single `disconnected_modules` warning
carrying the count when the walk visits fewer ids than there are modules. -/
def connectivityWarnings (modules : List ModuleInstance)
    (connections : List Connection) : List ValidationWarning :=
  match modules with
  | [] => []
  | [_] => []
  | m0 :: m1 :: rest =>
      let connected := connectedSet (m0 :: m1 :: rest) m0 (List.mem_cons_self _ _)
        connections
      if connected.length < (m0 :: m1 :: rest).length then
        [ValidationWarning.disconnectedModules ((m0 :: m1 :: rest).length - connected.length)]
      else []

/-- The `{ errors, warnings, isValid }` report of `validateHabitat`. -/
structure ValidationReport where
  errors : List ValidationError
  warnings : List ValidationWarning
  isValid : Bool

/-- Source `validateHabitat`: collision errors over all pairs, then one error
per invalid connection, then the reachability warning; `isValid` holds exactly
when the error list is empty. -/
noncomputable def validateHabitat (modules : List ModuleInstance)
    (connections : List Connection) : ValidationReport :=
  let errors := collisionErrors modules ++ connections.filterMap (connectionError modules)
  { errors := errors
    warnings := connectivityWarnings modules connections
    isValid := errors.length == 0 }

/-- The statistics record of the habitat context. -/
structure Statistics where
  totalModules : Nat
  totalMass : ℝ
  totalCrewCapacity : ℝ
  totalPowerConsumption : ℝ
  totalPowerGeneration : ℝ
  powerBalance : ℝ
  totalCost : ℝ

/-- The accumulator of the `reduce` inside `calculateStatistics`. -/
structure StatsAcc where
  totalMass : ℝ
  totalCrewCapacity : ℝ
  totalPowerConsumption : ℝ
  totalPowerGeneration : ℝ
  totalCost : ℝ

/-- One step of the `reduce` inside `calculateStatistics`: add the definition
totals when the definition resolves, otherwise leave the accumulator alone. -/
noncomputable def statsStep (acc : StatsAcc) (module : ModuleInstance) : StatsAcc :=
  match moduleDefinitions.find? (fun d => d.id == module.definitionId) with
  | some definition =>
      { totalMass := acc.totalMass + definition.mass
        totalCrewCapacity := acc.totalCrewCapacity + definition.crewCapacity
        totalPowerConsumption := acc.totalPowerConsumption + definition.powerConsumption
        totalPowerGeneration := acc.totalPowerGeneration + definition.powerGeneration
        totalCost := acc.totalCost + definition.cost }
  | none => acc

/-- Source `calculateStatistics`: fold the module list and derive
`totalModules` and `powerBalance`. -/
noncomputable def calculateStatistics (modules : List ModuleInstance) : Statistics :=
  let stats := modules.foldl statsStep ⟨0, 0, 0, 0, 0⟩
  { totalModules := modules.length
    totalMass := stats.totalMass
    totalCrewCapacity := stats.totalCrewCapacity
    totalPowerConsumption := stats.totalPowerConsumption
    totalPowerGeneration := stats.totalPowerGeneration
    powerBalance := stats.totalPowerGeneration - stats.totalPowerConsumption
    totalCost := stats.totalCost }

/-- The habitat context state (validation errors field omitted: no modelled
action both reads and writes it together with the fields under study). -/
structure HabitatState where
  modules : List ModuleInstance
  selectedModuleId : Option String
  connections : List Connection
  statistics : Statistics

/-- The reducer actions exercised by the modelled flows. -/
inductive HabitatAction where
  | addModule (payload : ModuleInstance)
  | removeModule (moduleId : String)
  | addConnection (payload : Connection)
  | removeConnection (connectionId : String)
  | selectModule (moduleId : String)
  | deselectModule

/-- Source `habitatReducer` on the modelled actions.  `REMOVE_MODULE` filters
the module list, clears the selection when it pointed at the removed id, and
recomputes statistics; it leaves `connections` untouched. -/
noncomputable def habitatReducer (state : HabitatState) (action : HabitatAction) :
    HabitatState :=
  match action with
  | HabitatAction.addModule payload =>
      let newModules := state.modules ++ [payload]
      { state with modules := newModules, statistics := calculateStatistics newModules }
  | HabitatAction.removeModule moduleId =>
      let filteredModules := state.modules.filter (fun m => ¬ m.id = moduleId)
      { state with
          modules := filteredModules
          selectedModuleId :=
            if state.selectedModuleId = some moduleId then none else state.selectedModuleId
          statistics := calculateStatistics filteredModules }
  | HabitatAction.addConnection payload =>
      { state with connections := state.connections ++ [payload] }
  | HabitatAction.removeConnection connectionId =>
      { state with
          connections := state.connections.filter (fun c => ¬ c.id = connectionId) }
  | HabitatAction.selectModule moduleId =>
      { state with selectedModuleId := some moduleId }
  | HabitatAction.deselectModule =>
      { state with selectedModuleId := none }

/-- Source `addModule` action creator: resolve the definition; on failure log
and return without dispatching (modelled as `(none, state)`); on success build
the instance (the generated uuid is the `newId` parameter) and dispatch
`ADD_MODULE`, returning the new id. -/
noncomputable def addModule (state : HabitatState) (definitionId : String)
    (position rotation : Vec3) (newId : String) : Option String × HabitatState :=
  match moduleDefinitions.find? (fun d => d.id == definitionId) with
  | none => (none, state)
  | some _ =>
      let newModule : ModuleInstance :=
        { id := newId, definitionId := definitionId, position := position, rotation := rotation }
      (some newId, habitatReducer state (HabitatAction.addModule newModule))

/-- The distance from a point to itself vanishes. -/
theorem distance3D_self (p : Vec3) : distance3D p p = 0 := by
  simp [distance3D]

/-- Evaluation rule for `distance3D`: when the sum of squared coordinate
differences equals `r * r` for nonnegative `r`, the distance is `r`. -/
theorem distance3D_eq_of_sq {p q : Vec3} {r : ℝ} (hr : 0 ≤ r)
    (h : (p.x - q.x) * (p.x - q.x) + (p.y - q.y) * (p.y - q.y) +
      (p.z - q.z) * (p.z - q.z) = r * r) :
    distance3D p q = r := by
  rw [distance3D, h, show r * r = r ^ 2 by ring, Real.sqrt_sq hr]

/-- The constant `MIN_ALIGNMENT_ANGLE` is `144` degrees, whose cosine is the
negated golden-ratio expression `-(1 + sqrt 5) / 4`. -/
theorem cos_min_alignment :
    Real.cos MIN_ALIGNMENT_ANGLE = -((1 + Real.sqrt 5) / 4) := by
  have h : MIN_ALIGNMENT_ANGLE = Real.pi - Real.pi / 5 := by
    unfold MIN_ALIGNMENT_ANGLE; ring
  rw [h, Real.cos_pi_sub, Real.cos_pi_div_five]

/-- The cosine of the documented alignment angle is below `-0.75`, hence in
particular below the hard-coded `canConnect` threshold `-0.7`. -/
theorem cos_min_alignment_lt : Real.cos MIN_ALIGNMENT_ANGLE < -0.75 := by
  rw [cos_min_alignment]
  have h5 : (2 : ℝ) < Real.sqrt 5 := by
    rw [show (2:ℝ) = Real.sqrt 4 by
      rw [show (4:ℝ) = 2 ^ 2 by norm_num, Real.sqrt_sq (by norm_num)]]
    exact Real.sqrt_lt_sqrt (by norm_num) (by norm_num)
  nlinarith [h5]

/-- Utility-typed point at the origin area used for the directionality claim. -/
noncomputable def pUtil : WorldPoint :=
  { id := "a", type := "utility", position := ⟨0, 0, 0⟩, normal := ⟨0, 0, 1⟩,
    worldPosition := ⟨1, 2, 3⟩, worldNormal := ⟨0, 0, 1⟩, moduleId := "mA" }

/-- Structural point coincident with `pUtil` and with opposed normal. -/
noncomputable def pStruct : WorldPoint :=
  { id := "b", type := "structural", position := ⟨0, 0, 0⟩, normal := ⟨0, 0, -1⟩,
    worldPosition := ⟨1, 2, 3⟩, worldNormal := ⟨0, 0, -1⟩, moduleId := "mB" }

/-- Claim C1: the type check of `canConnect` is directional: it consults the
compatibility table only at the type of the first point, so the coincident,
normal-opposed pair `pUtil` (utility) and `pStruct` (structural) is accepted in
the order utility-first and rejected with an incompatible-type reason in the
order structural-first. -/
theorem claim_C1 :
    pUtil.type = "utility" ∧ pStruct.type = "structural" ∧
    distance3D pUtil.worldPosition pStruct.worldPosition ≤ MAX_CONNECTION_DISTANCE ∧
    dotProduct pUtil.worldNormal pStruct.worldNormal = -1 ∧
    (canConnect pUtil pStruct).canConnect = true ∧
    (canConnect pUtil pStruct).reason = ConnectReason.valid ∧
    (canConnect pStruct pUtil).canConnect = false ∧
    (canConnect pStruct pUtil).reason =
      ConnectReason.incompatibleTypes "structural" "utility" := by
  refine ⟨rfl, rfl, ?_, ?_, ?_, ?_, ?_, ?_⟩ <;>
    norm_num [canConnect, pUtil, pStruct, connectionRules, MAX_CONNECTION_DISTANCE,
      distance3D_self, dotProduct] <;> simp

/-- Claim C7: for a pair passing the type check, `canConnect` fails with a
too-far reason exactly when the distance between the world positions is
strictly greater than the maximum of `0.5` meters; a pair exactly at the
maximum passes the distance check. -/
theorem claim_C7 (point1 point2 : WorldPoint)
    (htype : point2.type ∈ connectionRules point1.type) :
    MAX_CONNECTION_DISTANCE = 0.5 ∧
    (((canConnect point1 point2).canConnect = false ∧
        ∃ d, (canConnect point1 point2).reason = ConnectReason.tooFar d) ↔
      distance3D point1.worldPosition point2.worldPosition > MAX_CONNECTION_DISTANCE) := by
  refine ⟨rfl, ?_⟩
  simp only [canConnect, if_neg (not_not_intro htype)]
  by_cases hdist : distance3D point1.worldPosition point2.worldPosition >
      MAX_CONNECTION_DISTANCE
  · simp [hdist]
  · simp only [if_neg hdist]
    by_cases halign : dotProduct point1.worldNormal point2.worldNormal > -0.7 <;>
      simp [halign, hdist]

/-- Structural point used as the first argument in distance and alignment
boundary witnesses. -/
noncomputable def pFar1 : WorldPoint :=
  { id := "f1", type := "structural", position := ⟨0, 0, 0⟩, normal := ⟨1, 0, 0⟩,
    worldPosition := ⟨0, 0, 0⟩, worldNormal := ⟨1, 0, 0⟩, moduleId := "mF1" }

/-- Structural point `0.6` meters away from `pFar1`. -/
noncomputable def pFar2 : WorldPoint :=
  { id := "f2", type := "structural", position := ⟨0, 0, 0⟩, normal := ⟨-1, 0, 0⟩,
    worldPosition := ⟨0.6, 0, 0⟩, worldNormal := ⟨-1, 0, 0⟩, moduleId := "mF2" }

/-- Witness for claim C7: the structural pair `0.6` meters apart fails with a
too-far reason. -/
theorem claim_C7_witness :
    (canConnect pFar1 pFar2).canConnect = false ∧
    ∃ d, (canConnect pFar1 pFar2).reason = ConnectReason.tooFar d := by
  have hdist : distance3D pFar1.worldPosition pFar2.worldPosition = 0.6 :=
    distance3D_eq_of_sq (by norm_num) (by norm_num [pFar1, pFar2])
  exact (claim_C7 pFar1 pFar2 (by simp [pFar1, pFar2, connectionRules])).2.mpr
    (by rw [hdist, MAX_CONNECTION_DISTANCE]; norm_num)

/-- Claim C2 as amended: for a pair passing the type and distance checks,
`canConnect` fails with a misaligned reason exactly when the dot product of
the world normals is strictly greater than the hard-coded threshold `-0.7`
(a pair exactly at `-0.7` passes), and that hard-coded threshold is not the
documented `MIN_ALIGNMENT_ANGLE` value of 144 degrees, whose cosine lies
strictly below `-0.7` (about `-0.809`). -/
theorem claim_C2 (point1 point2 : WorldPoint)
    (htype : point2.type ∈ connectionRules point1.type)
    (hdist : ¬ distance3D point1.worldPosition point2.worldPosition >
      MAX_CONNECTION_DISTANCE) :
    ((∃ a, (canConnect point1 point2).reason = ConnectReason.misaligned a) ↔
      dotProduct point1.worldNormal point2.worldNormal > -0.7) ∧
    Real.cos MIN_ALIGNMENT_ANGLE < -0.7 := by
  refine ⟨?_, by have := cos_min_alignment_lt; nlinarith [this]⟩
  simp only [canConnect, if_neg (not_not_intro htype), if_neg hdist]
  by_cases halign : dotProduct point1.worldNormal point2.worldNormal > -0.7 <;>
    simp [halign]

/-- Structural point whose normal is the positive z axis, for the alignment
counterexample. -/
noncomputable def pAlign1 : WorldPoint :=
  { id := "g1", type := "structural", position := ⟨0, 0, 0⟩, normal := ⟨0, 0, 1⟩,
    worldPosition := ⟨4, 5, 6⟩, worldNormal := ⟨0, 0, 1⟩, moduleId := "mG1" }

/-- Point coincident with `pAlign1` whose normal gives dot product `-0.75`. -/
noncomputable def pAlign2 : WorldPoint :=
  { id := "g2", type := "structural", position := ⟨0, 0, 0⟩, normal := ⟨0, 0, -1⟩,
    worldPosition := ⟨4, 5, 6⟩, worldNormal := ⟨0, 0, -0.75⟩, moduleId := "mG2" }

/-- Counterexample to claim C2 as stated: the pair `pAlign1`, `pAlign2` passes
the type and distance checks and its normals have dot product `-0.75`, which
is strictly greater than the claimed threshold of about `-0.809` (the cosine
of the 144-degree `MIN_ALIGNMENT_ANGLE`), so under the claim it would fail as
misaligned — yet `canConnect` accepts it, because the code hard-codes the more
permissive threshold `-0.7`. -/
theorem claim_C2_counterexample :
    dotProduct pAlign1.worldNormal pAlign2.worldNormal = -0.75 ∧
    Real.cos MIN_ALIGNMENT_ANGLE < dotProduct pAlign1.worldNormal pAlign2.worldNormal ∧
    (canConnect pAlign1 pAlign2).canConnect = true ∧
    (canConnect pAlign1 pAlign2).reason = ConnectReason.valid := by
  have hdot : dotProduct pAlign1.worldNormal pAlign2.worldNormal = -0.75 := by
    norm_num [dotProduct, pAlign1, pAlign2]
  refine ⟨hdot, by rw [hdot]; exact cos_min_alignment_lt, ?_, ?_⟩ <;>
    norm_num [canConnect, pAlign1, pAlign2, connectionRules, MAX_CONNECTION_DISTANCE,
      distance3D_self, dotProduct]

/-- Structural point with positive z normal for the misaligned witness. -/
noncomputable def pMis1 : WorldPoint :=
  { id := "h1", type := "structural", position := ⟨0, 0, 0⟩, normal := ⟨0, 0, 1⟩,
    worldPosition := ⟨7, 8, 9⟩, worldNormal := ⟨0, 0, 1⟩, moduleId := "mH1" }

/-- Point coincident with `pMis1` whose normal gives dot product `-0.5`. -/
noncomputable def pMis2 : WorldPoint :=
  { id := "h2", type := "structural", position := ⟨0, 0, 0⟩, normal := ⟨0, 0, -1⟩,
    worldPosition := ⟨7, 8, 9⟩, worldNormal := ⟨0, 0, -0.5⟩, moduleId := "mH2" }

/-- Witness for the amended claim C2: the coincident structural pair with dot
product `-0.5` (above `-0.7`) is rejected as misaligned. -/
theorem claim_C2_witness :
    ∃ a, (canConnect pMis1 pMis2).reason = ConnectReason.misaligned a := by
  refine ((claim_C2 pMis1 pMis2 (by simp [pMis1, pMis2, connectionRules]) ?_).1).mpr ?_
  · rw [show distance3D pMis1.worldPosition pMis2.worldPosition = 0 from
      distance3D_self _]
    norm_num [MAX_CONNECTION_DISTANCE]
  · norm_num [dotProduct, pMis1, pMis2]

/-- Claim C9: calling `addModule` with a definition id absent from the catalog
dispatches nothing and returns no module id: the result is `none` and the
habitat state — modules and statistics included — is returned unchanged. -/
theorem claim_C9 (state : HabitatState) (definitionId : String)
    (position rotation : Vec3) (newId : String)
    (hmiss : moduleDefinitions.find? (fun d => d.id == definitionId) = none) :
    addModule state definitionId position rotation newId = (none, state) := by
  simp [addModule, hmiss]

/-- An empty habitat state with consistently computed statistics. -/
noncomputable def emptyState : HabitatState :=
  { modules := []
    selectedModuleId := none
    connections := []
    statistics := calculateStatistics [] }

/-- Witness for claim C9: adding a module with the unknown definition id
`mystery-module` to the empty state changes nothing. -/
theorem claim_C9_witness :
    addModule emptyState "mystery-module" ⟨0, 0, 0⟩ ⟨0, 0, 0⟩ "new-1" =
      (none, emptyState) :=
  claim_C9 emptyState "mystery-module" ⟨0, 0, 0⟩ ⟨0, 0, 0⟩ "new-1" rfl

/-- A central-hub instance used by the removal counterexample. -/
noncomputable def hubMod1 : ModuleInstance :=
  { id := "mod-1", definitionId := "central-hub", position := ⟨0, 0, 0⟩,
    rotation := ⟨0, 0, 0⟩ }

/-- A stored connection referencing module `mod-1`. -/
def connRef : Connection :=
  { id := "conn-1", moduleId1 := "mod-1", pointId1 := "north",
    moduleId2 := "other", pointId2 := "south" }

/-- A one-module state whose only connection references that module and whose
selection points at it. -/
noncomputable def stateC5 : HabitatState :=
  { modules := [hubMod1]
    selectedModuleId := some "mod-1"
    connections := [connRef]
    statistics := calculateStatistics [hubMod1] }

/-- Counterexample to claim C5 as stated: removing module `mod-1` deletes the
module, but the connection `conn-1` that references `mod-1` is still present
afterwards — the reducer never touches the connections list. -/
theorem claim_C5_counterexample :
    connRef.moduleId1 = "mod-1" ∧
    (habitatReducer stateC5 (HabitatAction.removeModule "mod-1")).modules = [] ∧
    (habitatReducer stateC5 (HabitatAction.removeModule "mod-1")).connections =
      [connRef] := by
  refine ⟨rfl, ?_, ?_⟩ <;> simp [habitatReducer, stateC5, hubMod1]

/-- Claim C5 as amended: deleting a module removes exactly the instances
carrying the deleted id from the module list and clears the selection if it
pointed at the removed module, but leaves the connections list unchanged —
connections referencing the deleted module stay and are flagged by the next
`validateHabitat` run instead of being removed. -/
theorem claim_C5 (state : HabitatState) (moduleId : String) :
    (∀ m, m ∈ (habitatReducer state (HabitatAction.removeModule moduleId)).modules ↔
      m ∈ state.modules ∧ ¬ m.id = moduleId) ∧
    (habitatReducer state (HabitatAction.removeModule moduleId)).connections =
      state.connections ∧
    (state.selectedModuleId = some moduleId →
      (habitatReducer state (HabitatAction.removeModule moduleId)).selectedModuleId =
        none) ∧
    (state.selectedModuleId ≠ some moduleId →
      (habitatReducer state (HabitatAction.removeModule moduleId)).selectedModuleId =
        state.selectedModuleId) := by
  refine ⟨?_, rfl, ?_, ?_⟩
  · intro m
    simp [habitatReducer, List.mem_filter]
  · intro h
    simp [habitatReducer, h]
  · intro h
    simp [habitatReducer, h]

/-- Witness for the amended claim C5: on the concrete one-module state the
removal keeps the connection list and clears the selection. -/
theorem claim_C5_witness :
    (habitatReducer stateC5 (HabitatAction.removeModule "mod-1")).connections =
      stateC5.connections ∧
    (habitatReducer stateC5 (HabitatAction.removeModule "mod-1")).selectedModuleId =
      none :=
  ⟨(claim_C5 stateC5 "mod-1").2.1, (claim_C5 stateC5 "mod-1").2.2.1 rfl⟩

/-- Claim C8: statistics are recomputed from the module list; adding a module
whose definition resolves to `d` raises `totalMass`, `totalCost` and
`totalCrewCapacity` by exactly the values of `d`; removing the added module
again restores the statistics record exactly; and `powerBalance` always equals
`totalPowerGeneration - totalPowerConsumption`. -/
theorem claim_C8 (state : HabitatState) (m : ModuleInstance) (d : ModuleDefinition)
    (hfind : moduleDefinitions.find? (fun x => x.id == m.definitionId) = some d)
    (hfresh : ∀ m2 ∈ state.modules, ¬ m2.id = m.id)
    (hstats : state.statistics = calculateStatistics state.modules) :
    (habitatReducer state (HabitatAction.addModule m)).statistics.totalMass =
      state.statistics.totalMass + d.mass ∧
    (habitatReducer state (HabitatAction.addModule m)).statistics.totalCost =
      state.statistics.totalCost + d.cost ∧
    (habitatReducer state (HabitatAction.addModule m)).statistics.totalCrewCapacity =
      state.statistics.totalCrewCapacity + d.crewCapacity ∧
    (habitatReducer (habitatReducer state (HabitatAction.addModule m))
      (HabitatAction.removeModule m.id)).statistics = state.statistics ∧
    (∀ l : List ModuleInstance, (calculateStatistics l).powerBalance =
      (calculateStatistics l).totalPowerGeneration -
        (calculateStatistics l).totalPowerConsumption) := by
  have hstep : ∀ acc : StatsAcc, statsStep acc m =
      { totalMass := acc.totalMass + d.mass
        totalCrewCapacity := acc.totalCrewCapacity + d.crewCapacity
        totalPowerConsumption := acc.totalPowerConsumption + d.powerConsumption
        totalPowerGeneration := acc.totalPowerGeneration + d.powerGeneration
        totalCost := acc.totalCost + d.cost } := by
    intro acc
    simp [statsStep, hfind]
  have hfold : (state.modules ++ [m]).foldl statsStep ⟨0, 0, 0, 0, 0⟩ =
      statsStep (state.modules.foldl statsStep ⟨0, 0, 0, 0, 0⟩) m := by
    simp [List.foldl_append]
  have hfilter : (state.modules ++ [m]).filter (fun m2 => ¬ m2.id = m.id) =
      state.modules := by
    rw [List.filter_append]
    have h1 : state.modules.filter (fun m2 => ¬ m2.id = m.id) = state.modules :=
      List.filter_eq_self.mpr (fun a ha => by simpa using hfresh a ha)
    have h2 : [m].filter (fun m2 => ¬ m2.id = m.id) = [] := by simp
    rw [h1, h2, List.append_nil]
  refine ⟨?_, ?_, ?_, ?_, fun l => rfl⟩
  · simp [habitatReducer, hstats, calculateStatistics, hfold, hstep]
  · simp [habitatReducer, hstats, calculateStatistics, hfold, hstep]
  · simp [habitatReducer, hstats, calculateStatistics, hfold, hstep]
  · have hproj : (habitatReducer (habitatReducer state (HabitatAction.addModule m))
        (HabitatAction.removeModule m.id)).statistics =
        calculateStatistics ((state.modules ++ [m]).filter (fun m2 => ¬ m2.id = m.id)) :=
      rfl
    rw [hproj, hfilter, ← hstats]

/-- The central-hub instance added in the statistics witness. -/
noncomputable def hubAdded : ModuleInstance :=
  { id := "hub-1", definitionId := "central-hub", position := ⟨0, 0, 0⟩,
    rotation := ⟨0, 0, 0⟩ }

/-- Witness for claim C8: adding the central hub to the empty state raises
`totalMass` by the hub mass, and removing it again restores the statistics. -/
theorem claim_C8_witness :
    (habitatReducer emptyState (HabitatAction.addModule hubAdded)).statistics.totalMass =
      emptyState.statistics.totalMass + centralHub.mass ∧
    (habitatReducer (habitatReducer emptyState (HabitatAction.addModule hubAdded))
      (HabitatAction.removeModule hubAdded.id)).statistics = emptyState.statistics := by
  have h := claim_C8 emptyState hubAdded centralHub rfl (by simp [emptyState]) rfl
  exact ⟨h.1, h.2.2.2.1⟩

/-- A colliding pair resolves both definitions: when `checkModuleCollision`
holds, neither catalog lookup failed. -/
theorem checkModuleCollision_defs (module1 module2 : ModuleInstance)
    (h : checkModuleCollision module1 module2) :
    (moduleDefinitions.find? (fun d => d.id == module1.definitionId)).isSome ∧
    (moduleDefinitions.find? (fun d => d.id == module2.definitionId)).isSome := by
  unfold checkModuleCollision at h
  cases h1 : moduleDefinitions.find? (fun d => d.id == module1.definitionId) with
  | none => rw [h1] at h; exact absurd h (by simp)
  | some def1 =>
      cases h2 : moduleDefinitions.find? (fun d => d.id == module2.definitionId) with
      | none => rw [h1, h2] at h; exact absurd h (by simp)
      | some def2 => simp [h1, h2]

/-- Every entry of `collisionErrors` is a `collision` error. -/
theorem collisionErrors_shape (modules : List ModuleInstance) :
    ∀ e ∈ collisionErrors modules, ∃ a b, e = ValidationError.collision a b := by
  induction modules with
  | nil => simp [collisionErrors]
  | cons m rest ih =>
      intro e he
      rcases List.mem_append.mp he with he | he
      · rcases List.mem_filterMap.mp he with ⟨m2, _, hm2⟩
        by_cases hcol : checkModuleCollision m m2
        · rw [if_pos hcol] at hm2
          exact ⟨m.id, m2.id, (Option.some.injEq _ _ ▸ hm2).symm⟩
        · rw [if_neg hcol] at hm2
          exact absurd hm2 (by simp)
      · exact ih e he

/-- Every `collision` error of `validateHabitat` names two modules of the list
whose catalog definitions both resolve. -/
theorem collision_error_mem (modules : List ModuleInstance) (a b : String)
    (h : ValidationError.collision a b ∈ collisionErrors modules) :
    ∃ ma, ma ∈ modules ∧ ma.id = a ∧
      (moduleDefinitions.find? (fun d => d.id == ma.definitionId)).isSome ∧
      ∃ mb, mb ∈ modules ∧ mb.id = b ∧
        (moduleDefinitions.find? (fun d => d.id == mb.definitionId)).isSome := by
  induction modules with
  | nil => simp [collisionErrors] at h
  | cons m rest ih =>
      rcases List.mem_append.mp h with he | he
      · rcases List.mem_filterMap.mp he with ⟨m2, hm2r, hm2⟩
        by_cases hcol : checkModuleCollision m m2
        · rw [if_pos hcol] at hm2
          have heq := Option.some.injEq _ _ ▸ hm2
          have hids : m.id = a ∧ m2.id = b := by
            cases heq
            exact ⟨rfl, rfl⟩
          have hdefs := checkModuleCollision_defs m m2 hcol
          exact ⟨m, List.mem_cons_self _ _, hids.1, hdefs.1,
            m2, List.mem_cons_of_mem _ hm2r, hids.2, hdefs.2⟩
        · rw [if_neg hcol] at hm2
          exact absurd hm2 (by simp)
      · rcases ih he with ⟨ma, hma, haid, hadef, mb, hmb, hbid, hbdef⟩
        exact ⟨ma, List.mem_cons_of_mem _ hma, haid, hadef,
          mb, List.mem_cons_of_mem _ hmb, hbid, hbdef⟩

/-- The at-most-one connection error is never a `collision` error. -/
theorem connectionError_ne_collision (modules : List ModuleInstance)
    (c : Connection) (a b : String) :
    connectionError modules c ≠ some (ValidationError.collision a b) := by
  unfold connectionError
  split
  · dsimp only
    split
    · split <;> simp
    · simp
  · simp

/-- Claim C10: a pair of module instances with at least one unresolvable
definition id never collides, and every collision error that `validateHabitat`
reports names two modules of the list whose definitions both resolve — so a
module with an unknown definition never appears in a collision error. -/
theorem claim_C10 (module1 module2 : ModuleInstance)
    (hmiss : moduleDefinitions.find? (fun d => d.id == module1.definitionId) = none ∨
      moduleDefinitions.find? (fun d => d.id == module2.definitionId) = none) :
    ¬ checkModuleCollision module1 module2 ∧
    ∀ (modules : List ModuleInstance) (connections : List Connection) (a b : String),
      ValidationError.collision a b ∈ (validateHabitat modules connections).errors →
      ∃ ma, ma ∈ modules ∧ ma.id = a ∧
        (moduleDefinitions.find? (fun d => d.id == ma.definitionId)).isSome ∧
        ∃ mb, mb ∈ modules ∧ mb.id = b ∧
          (moduleDefinitions.find? (fun d => d.id == mb.definitionId)).isSome := by
  constructor
  · intro h
    have hdefs := checkModuleCollision_defs module1 module2 h
    rcases hmiss with hm | hm
    · rw [hm] at hdefs
      exact absurd hdefs.1 (by simp)
    · rw [hm] at hdefs
      exact absurd hdefs.2 (by simp)
  · intro modules connections a b hmem
    rcases List.mem_append.mp hmem with he | he
    · exact collision_error_mem modules a b he
    · rcases List.mem_filterMap.mp he with ⟨c, _, hce⟩
      exact absurd hce (connectionError_ne_collision modules c a b)

/-- A module instance whose definition id is not in the catalog. -/
noncomputable def ghostMod : ModuleInstance :=
  { id := "ghost-1", definitionId := "mystery-module", position := ⟨0, 0, 0⟩,
    rotation := ⟨0, 0, 0⟩ }

/-- Witness for claim C10: the unknown-definition module at the exact position
of a central hub is still reported as not colliding with it. -/
theorem claim_C10_witness : ¬ checkModuleCollision ghostMod hubAdded :=
  (claim_C10 ghostMod hubAdded (Or.inl rfl)).1

/-- Test for the invalid-reference error (missing module) carrying a given
connection id. -/
def isInvalidRefFor (e : ValidationError) (connId : String) : Bool :=
  match e with
  | ValidationError.invalidConnectionModule i => i == connId
  | _ => false

/-- The connection id carried by a validation error, when it has one. -/
def errorConnectionId (e : ValidationError) : Option String :=
  match e with
  | ValidationError.collision _ _ => none
  | ValidationError.invalidConnectionModule i => some i
  | ValidationError.invalidConnectionPoint i => some i
  | ValidationError.invalidConnectionRejected i _ => some i

/-- Every error the per-connection check produces carries the id of the very
connection it was produced for. -/
theorem connectionError_id (modules : List ModuleInstance) (c : Connection)
    (e : ValidationError) (h : connectionError modules c = some e) :
    errorConnectionId e = some c.id := by
  unfold connectionError at h
  split at h
  · dsimp only at h
    split at h
    · split at h
      · exact absurd h (by simp)
      · cases Option.some.injEq _ _ ▸ h
        rfl
    · cases Option.some.injEq _ _ ▸ h
      rfl
  · cases Option.some.injEq _ _ ▸ h
    rfl

/-- When a connection references a module id that does not resolve in the
module list, the per-connection check produces exactly the invalid-reference
error tagged with the connection id. -/
theorem connectionError_of_missing (modules : List ModuleInstance) (c : Connection)
    (hmiss : modules.find? (fun m => m.id == c.moduleId1) = none ∨
      modules.find? (fun m => m.id == c.moduleId2) = none) :
    connectionError modules c = some (ValidationError.invalidConnectionModule c.id) := by
  unfold connectionError
  rcases hmiss with h | h
  · rw [h]
  · rw [h]
    cases modules.find? (fun m => m.id == c.moduleId1) <;> rfl

/-- Errors produced for the connections of a list whose ids avoid `x` never
match the invalid-reference filter for `x`. -/
theorem no_ref_of_not_mem (modules : List ModuleInstance)
    (tl : List Connection) (x : String) (hx : x ∉ tl.map (fun c => c.id)) :
    ∀ e ∈ tl.filterMap (connectionError modules), isInvalidRefFor e x = false := by
  intro e he
  rcases List.mem_filterMap.mp he with ⟨c, hc, hce⟩
  have hid := connectionError_id modules c e hce
  cases e with
  | invalidConnectionModule i =>
      simp only [errorConnectionId, Option.some.injEq] at hid
      subst hid
      simp only [isInvalidRefFor, beq_eq_false_iff_ne, ne_eq]
      intro hcx
      exact hx (hcx ▸ List.mem_map_of_mem _ hc)
  | collision a b => rfl
  | invalidConnectionPoint i => rfl
  | invalidConnectionRejected i r => rfl

/-- Exactly one invalid-reference error for the broken connection among the
per-connection errors, given pairwise-distinct connection ids. -/
theorem count_invalidRef (modules : List ModuleInstance)
    (connections : List Connection)
    (hnodup : (connections.map (fun c => c.id)).Nodup)
    (c : Connection) (hc : c ∈ connections)
    (hmiss : modules.find? (fun m => m.id == c.moduleId1) = none ∨
      modules.find? (fun m => m.id == c.moduleId2) = none) :
    ((connections.filterMap (connectionError modules)).filter
      (fun e => isInvalidRefFor e c.id)).length = 1 := by
  induction connections with
  | nil => cases hc
  | cons d tl ih =>
      rw [List.map_cons, List.nodup_cons] at hnodup
      rcases List.mem_cons.mp hc with rfl | hc2
      · rw [List.filterMap_cons, connectionError_of_missing modules c hmiss]
        have hdrop : (tl.filterMap (connectionError modules)).filter
            (fun e => isInvalidRefFor e c.id) = [] := by
          apply List.filter_eq_nil_iff.mpr
          intro e he
          rw [no_ref_of_not_mem modules tl c.id hnodup.1 e he]
          simp
        rw [List.filter_cons]
        have htrue : isInvalidRefFor
            (ValidationError.invalidConnectionModule c.id) c.id = true := by
          simp [isInvalidRefFor]
        rw [htrue, if_pos rfl, hdrop]
        rfl
      · rw [List.filterMap_cons]
        have hcid : c.id ∈ tl.map (fun c => c.id) := List.mem_map_of_mem _ hc2
        have hne : ¬ d.id = c.id := fun h => hnodup.1 (h ▸ hcid)
        cases hde : connectionError modules d with
        | none => exact ih hnodup.2 hc2
        | some e =>
            have hid := connectionError_id modules d e hde
            have hfalse : isInvalidRefFor e c.id = false := by
              cases e with
              | invalidConnectionModule i =>
                  simp only [errorConnectionId, Option.some.injEq] at hid
                  subst hid
                  simpa [isInvalidRefFor] using hne
              | collision a b => rfl
              | invalidConnectionPoint i => rfl
              | invalidConnectionRejected i r => rfl
            rw [List.filter_cons, hfalse]
            simp only [Bool.false_eq_true, if_false]
            exact ih hnodup.2 hc2

/-- Claim C4: when a stored connection references a module id that is not in
the module list, `validateHabitat` reports exactly one invalid-reference error
carrying that connection id (given the uuid-generated connection ids are
pairwise distinct), and every error carrying that connection id is the
invalid-reference error — in particular no distance or alignment failure is
ever reported for that connection.  The function is total, so the call cannot
throw. -/
theorem claim_C4 (modules : List ModuleInstance) (connections : List Connection)
    (hnodup : (connections.map (fun c => c.id)).Nodup)
    (c : Connection) (hc : c ∈ connections)
    (hmiss : modules.find? (fun m => m.id == c.moduleId1) = none ∨
      modules.find? (fun m => m.id == c.moduleId2) = none) :
    ((validateHabitat modules connections).errors.filter
      (fun e => isInvalidRefFor e c.id)).length = 1 ∧
    ∀ e ∈ (validateHabitat modules connections).errors,
      errorConnectionId e = some c.id →
      e = ValidationError.invalidConnectionModule c.id := by
  have hcoll : (collisionErrors modules).filter (fun e => isInvalidRefFor e c.id) = [] := by
    apply List.filter_eq_nil_iff.mpr
    intro e he
    rcases collisionErrors_shape modules e he with ⟨a, b, rfl⟩
    simp [isInvalidRefFor]
  constructor
  · show ((collisionErrors modules ++
      connections.filterMap (connectionError modules)).filter
        (fun e => isInvalidRefFor e c.id)).length = 1
    rw [List.filter_append, hcoll, List.nil_append]
    exact count_invalidRef modules connections hnodup c hc hmiss
  · intro e he hid
    rcases List.mem_append.mp he with he | he
    · rcases collisionErrors_shape modules e he with ⟨a, b, rfl⟩
      exact absurd hid (by simp [errorConnectionId])
    · rcases List.mem_filterMap.mp he with ⟨c2, hc2, hc2e⟩
      have hid2 := connectionError_id modules c2 e hc2e
      rw [hid] at hid2
      have hceq : c = c2 :=
        List.inj_on_of_nodup_map hnodup hc hc2 (Option.some_inj.mp hid2)
      subst hceq
      rw [connectionError_of_missing modules c hmiss] at hc2e
      exact (Option.some.injEq _ _ ▸ hc2e).symm

/-- Witness for claim C4: with no modules at all and the single stored
connection `conn-1`, validation reports exactly one invalid-reference error
for `conn-1`. -/
theorem claim_C4_witness :
    ((validateHabitat [] [connRef]).errors.filter
      (fun e => isInvalidRefFor e "conn-1")).length = 1 := by
  have h := claim_C4 [] [connRef] (by simp) connRef (List.mem_cons_self _ _)
    (Or.inl rfl)
  exact h.1

end HabitatBuilder

namespace HabitatBuilder

/-- One undirected hop along a stored connection. -/
def connStep (connections : List Connection) (a b : String) : Prop :=
  ∃ c ∈ connections, (c.moduleId1 = a ∧ c.moduleId2 = b) ∨
    (c.moduleId2 = a ∧ c.moduleId1 = b)

/-- Reachability through the undirected connection relation. -/
def reachableFrom (connections : List Connection) (a b : String) : Prop :=
  Relation.ReflTransGen (connStep connections) a b

/-- A step out of the current id lands either in the connected set or among
the pushed neighbor candidates. -/
theorem mem_dfsNeighbors_of_step (connections : List Connection)
    (connected : List String) (cur b : String) (hcur : cur ∈ connected)
    (hstep : connStep connections cur b) :
    b ∈ connected ∨ b ∈ dfsNeighbors connections connected cur := by
  rcases hstep with ⟨c, hc, hcase⟩
  by_cases hbmem : b ∈ connected
  · exact Or.inl hbmem
  · right
    rcases hcase with ⟨h1, h2⟩ | ⟨h1, h2⟩
    · refine List.mem_filterMap.mpr ⟨c, hc, ?_⟩
      rw [if_pos ⟨h1, h2 ▸ hbmem⟩, h2]
    · refine List.mem_filterMap.mpr ⟨c, hc, ?_⟩
      by_cases hfirst : c.moduleId1 = cur ∧ c.moduleId2 ∉ connected
      · exact absurd (show c.moduleId2 ∈ connected from h1.symm ▸ hcur) hfirst.2
      · rw [if_neg hfirst, if_pos ⟨h1, h2 ▸ hbmem⟩, h2]

end HabitatBuilder

namespace HabitatBuilder

/-- Unfolding rule: an empty stack returns the connected set. -/
theorem dfsWalk_nil (connections : List Connection) (U : List String)
    (hconn : ∀ c ∈ connections, c.moduleId1 ∈ U ∧ c.moduleId2 ∈ U)
    (connected : List String) (hU : ∀ s ∈ ([] : List String), s ∈ U) :
    dfsWalk connections U hconn connected [] hU = connected := by
  simp [dfsWalk]

/-- Unfolding rule: popping an already-connected id just drops it. -/
theorem dfsWalk_cons_mem (connections : List Connection) (U : List String)
    (hconn : ∀ c ∈ connections, c.moduleId1 ∈ U ∧ c.moduleId2 ∈ U)
    (connected : List String) (currentId : String) (rest : List String)
    (hU : ∀ s ∈ currentId :: rest, s ∈ U) (h : currentId ∈ connected) :
    dfsWalk connections U hconn connected (currentId :: rest) hU =
      dfsWalk connections U hconn connected rest
        (fun s hs => hU s (List.mem_cons_of_mem _ hs)) := by
  rw [dfsWalk]
  rw [if_pos h]

/-- Unfolding rule: popping a new id marks it connected and pushes its
neighbor candidates. -/
theorem dfsWalk_cons_not_mem (connections : List Connection) (U : List String)
    (hconn : ∀ c ∈ connections, c.moduleId1 ∈ U ∧ c.moduleId2 ∈ U)
    (connected : List String) (currentId : String) (rest : List String)
    (hU : ∀ s ∈ currentId :: rest, s ∈ U) (h : currentId ∉ connected)
    (hU2 : ∀ s ∈ (dfsNeighbors connections (currentId :: connected) currentId).reverse
      ++ rest, s ∈ U) :
    dfsWalk connections U hconn connected (currentId :: rest) hU =
      dfsWalk connections U hconn (currentId :: connected)
        ((dfsNeighbors connections (currentId :: connected) currentId).reverse ++ rest)
        hU2 := by
  rw [dfsWalk]
  rw [if_neg h]

end HabitatBuilder

namespace HabitatBuilder

/-- The walk only ever adds to the connected set. -/
theorem dfsWalk_subset (connections : List Connection) (U : List String)
    (hconn : ∀ c ∈ connections, c.moduleId1 ∈ U ∧ c.moduleId2 ∈ U)
    (connected toVisit : List String) (hU : ∀ s ∈ toVisit, s ∈ U) :
    ∀ s ∈ connected, s ∈ dfsWalk connections U hconn connected toVisit hU := by
  induction connected, toVisit, hU using dfsWalk.induct connections U hconn with
  | case1 connected hU _ =>
      rw [dfsWalk_nil]
      exact fun s hs => hs
  | case2 connected currentId rest hU hmem _ ih =>
      rw [dfsWalk_cons_mem connections U hconn connected currentId rest hU hmem]
      exact ih
  | case3 connected currentId rest hU hmem _ ih =>
      rw [dfsWalk_cons_not_mem connections U hconn connected currentId rest hU hmem]
      exact fun s hs => ih s (List.mem_cons_of_mem _ hs)

/-- Everything on the stack ends up in the final connected set. -/
theorem dfsWalk_mem_of_stack (connections : List Connection) (U : List String)
    (hconn : ∀ c ∈ connections, c.moduleId1 ∈ U ∧ c.moduleId2 ∈ U)
    (connected toVisit : List String) (hU : ∀ s ∈ toVisit, s ∈ U) :
    ∀ s, s ∈ connected ∨ s ∈ toVisit →
      s ∈ dfsWalk connections U hconn connected toVisit hU := by
  induction connected, toVisit, hU using dfsWalk.induct connections U hconn with
  | case1 connected hU _ =>
      rw [dfsWalk_nil]
      rintro s (hs | hs)
      · exact hs
      · cases hs
  | case2 connected currentId rest hU hmem _ ih =>
      rw [dfsWalk_cons_mem connections U hconn connected currentId rest hU hmem]
      rintro s (hs | hs)
      · exact ih s (Or.inl hs)
      · rcases List.mem_cons.mp hs with rfl | hs
        · exact ih s (Or.inl hmem)
        · exact ih s (Or.inr hs)
  | case3 connected currentId rest hU hmem _ ih =>
      rw [dfsWalk_cons_not_mem connections U hconn connected currentId rest hU hmem]
      rintro s (hs | hs)
      · exact ih s (Or.inl (List.mem_cons_of_mem _ hs))
      · rcases List.mem_cons.mp hs with rfl | hs
        · exact ih s (Or.inl (List.mem_cons_self _ _))
        · exact ih s (Or.inr (List.mem_append_right _ hs))

/-- The connected set stays duplicate-free along the walk. -/
theorem dfsWalk_nodup (connections : List Connection) (U : List String)
    (hconn : ∀ c ∈ connections, c.moduleId1 ∈ U ∧ c.moduleId2 ∈ U)
    (connected toVisit : List String) (hU : ∀ s ∈ toVisit, s ∈ U) :
    connected.Nodup → (dfsWalk connections U hconn connected toVisit hU).Nodup := by
  induction connected, toVisit, hU using dfsWalk.induct connections U hconn with
  | case1 connected hU _ =>
      rw [dfsWalk_nil]
      exact id
  | case2 connected currentId rest hU hmem _ ih =>
      rw [dfsWalk_cons_mem connections U hconn connected currentId rest hU hmem]
      exact ih
  | case3 connected currentId rest hU hmem _ ih =>
      rw [dfsWalk_cons_not_mem connections U hconn connected currentId rest hU hmem]
      exact fun hnd => ih (List.nodup_cons.mpr ⟨hmem, hnd⟩)

/-- When every step out of the connected set lands in the connected set or on
the stack, the final connected set is closed under connection steps. -/
theorem dfsWalk_closed (connections : List Connection) (U : List String)
    (hconn : ∀ c ∈ connections, c.moduleId1 ∈ U ∧ c.moduleId2 ∈ U)
    (connected toVisit : List String) (hU : ∀ s ∈ toVisit, s ∈ U) :
    (∀ a ∈ connected, ∀ b, connStep connections a b →
      b ∈ connected ∨ b ∈ toVisit) →
    ∀ a ∈ dfsWalk connections U hconn connected toVisit hU,
      ∀ b, connStep connections a b →
        b ∈ dfsWalk connections U hconn connected toVisit hU := by
  induction connected, toVisit, hU using dfsWalk.induct connections U hconn with
  | case1 connected hU _ =>
      rw [dfsWalk_nil]
      intro hcl a ha b hstep
      rcases hcl a ha b hstep with hb | hb
      · exact hb
      · cases hb
  | case2 connected currentId rest hU hmem _ ih =>
      rw [dfsWalk_cons_mem connections U hconn connected currentId rest hU hmem]
      intro hcl
      apply ih
      intro a ha b hstep
      rcases hcl a ha b hstep with hb | hb
      · exact Or.inl hb
      · rcases List.mem_cons.mp hb with rfl | hb
        · exact Or.inl hmem
        · exact Or.inr hb
  | case3 connected currentId rest hU hmem _ ih =>
      rw [dfsWalk_cons_not_mem connections U hconn connected currentId rest hU hmem]
      intro hcl
      apply ih
      intro a ha b hstep
      rcases List.mem_cons.mp ha with rfl | ha
      · rcases mem_dfsNeighbors_of_step connections (a :: connected) a b
          (List.mem_cons_self _ _) hstep with hb | hb
        · exact Or.inl hb
        · exact Or.inr (List.mem_append_left _ (List.mem_reverse.mpr hb))
      · rcases hcl a ha b hstep with hb | hb
        · exact Or.inl (List.mem_cons_of_mem _ hb)
        · rcases List.mem_cons.mp hb with rfl | hb
          · exact Or.inl (List.mem_cons_self _ _)
          · exact Or.inr (List.mem_append_right _ hb)

/-- Completeness of the walk: every id reachable from the start through the
undirected connection relation is in the final connected set. -/
theorem dfsWalk_complete (connections : List Connection) (U : List String)
    (hconn : ∀ c ∈ connections, c.moduleId1 ∈ U ∧ c.moduleId2 ∈ U)
    (start : String) (hU : ∀ s ∈ [start], s ∈ U) (x : String)
    (hreach : reachableFrom connections start x) :
    x ∈ dfsWalk connections U hconn [] [start] hU := by
  have hclosed := dfsWalk_closed connections U hconn [] [start] hU
    (fun a ha => absurd ha (List.not_mem_nil a))
  have hstart : start ∈ dfsWalk connections U hconn [] [start] hU :=
    dfsWalk_mem_of_stack connections U hconn [] [start] hU start
      (Or.inr (List.mem_cons_self _ _))
  induction hreach with
  | refl => exact hstart
  | tail _ hstep ih => exact hclosed _ ih _ hstep

end HabitatBuilder

namespace HabitatBuilder

/-- The warnings of the aggregate report are the connectivity warnings. -/
theorem validateHabitat_warnings (modules : List ModuleInstance)
    (connections : List Connection) :
    (validateHabitat modules connections).warnings =
      connectivityWarnings modules connections := rfl

/-- A duplicate-free list contained in a duplicate-free list is no longer. -/
theorem nodup_subset_length_le {l1 l2 : List String} (h1 : l1.Nodup)
    (h2 : l2.Nodup) (hsub : ∀ x ∈ l1, x ∈ l2) : l1.length ≤ l2.length := by
  rw [← List.toFinset_card_of_nodup h1, ← List.toFinset_card_of_nodup h2]
  exact Finset.card_le_card
    (fun x hx => List.mem_toFinset.mpr (hsub x (List.mem_toFinset.mp hx)))

/-- Reachable ids are in the connected set computed for the warning. -/
theorem connectedSet_complete (modules : List ModuleInstance)
    (m0 : ModuleInstance) (h0 : m0 ∈ modules) (connections : List Connection)
    (x : String) (hreach : reachableFrom connections m0.id x) :
    x ∈ connectedSet modules m0 h0 connections := by
  unfold connectedSet
  exact dfsWalk_complete connections (nodeUniverse modules connections)
    (conn_mem_nodeUniverse modules connections) m0.id _ x hreach

/-- The connected set computed for the warning is duplicate-free. -/
theorem connectedSet_nodup (modules : List ModuleInstance)
    (m0 : ModuleInstance) (h0 : m0 ∈ modules) (connections : List Connection) :
    (connectedSet modules m0 h0 connections).Nodup := by
  unfold connectedSet
  exact dfsWalk_nodup connections (nodeUniverse modules connections)
    (conn_mem_nodeUniverse modules connections) [] [m0.id] _ List.nodup_nil

end HabitatBuilder

namespace HabitatBuilder

/-- Evaluation of the reachability warning on a three-module habitat whose
single connection links the first two modules: the walk visits exactly those
two ids, so one `disconnected_modules` warning with count `1` is produced —
whatever the third module is. -/
theorem threeModuleWarning (a b c : ModuleInstance) (conn : Connection)
    (hm1 : conn.moduleId1 = a.id) (hm2 : conn.moduleId2 = b.id)
    (hba : ¬ b.id = a.id) :
    (validateHabitat [a, b, c] [conn]).warnings =
      [ValidationWarning.disconnectedModules 1] := by
  have hab : ¬ a.id = b.id := fun h => hba h.symm
  have hcs : connectedSet [a, b, c] a (List.mem_cons_self _ _) [conn] =
      [b.id, a.id] := by
    unfold connectedSet
    simp [dfsWalk, dfsNeighbors, hm1, hm2, hba, hab]
  rw [validateHabitat_warnings]
  have hred : connectivityWarnings [a, b, c] [conn] =
      if (connectedSet [a, b, c] a (List.mem_cons_self _ _) [conn]).length <
          ([a, b, c] : List ModuleInstance).length then
        [ValidationWarning.disconnectedModules (([a, b, c] : List ModuleInstance).length -
          (connectedSet [a, b, c] a (List.mem_cons_self _ _) [conn]).length)]
      else [] := rfl
  rw [hred, hcs]
  norm_num

/-- Claim C6 as amended: a disconnection warning appears only when there are at
least two modules and some module is unreachable from the first module through
the undirected connection relation (module ids are uuid-generated, hence
assumed pairwise distinct); zero or one module never yields one; and for three
distinct modules with the first two connected and the third isolated, exactly
one disconnection warning is emitted, carrying the count `1` of unreachable
modules (the warning does not name the isolated module). -/
theorem claim_C6 (modules : List ModuleInstance) (connections : List Connection)
    (hnodup : (modules.map (fun m => m.id)).Nodup) :
    ((validateHabitat modules connections).warnings ≠ [] →
      ∃ m0 ms, modules = m0 :: ms ∧ ms ≠ [] ∧
        ∃ m ∈ modules, ¬ reachableFrom connections m0.id m.id) ∧
    (modules.length ≤ 1 → (validateHabitat modules connections).warnings = []) ∧
    (∀ (a b c : ModuleInstance) (conn : Connection),
      modules = [a, b, c] → connections = [conn] →
      conn.moduleId1 = a.id → conn.moduleId2 = b.id →
      ¬ c.id = a.id → ¬ c.id = b.id → ¬ b.id = a.id →
      (validateHabitat modules connections).warnings =
        [ValidationWarning.disconnectedModules 1]) := by
  refine ⟨?_, ?_, ?_⟩
  · intro hw
    rw [validateHabitat_warnings] at hw
    match modules, hnodup with
    | [], _ => exact absurd rfl hw
    | [m], _ => exact absurd rfl hw
    | m0 :: m1 :: rest, hnodup =>
      refine ⟨m0, m1 :: rest, rfl, by simp, ?_⟩
      have hred : connectivityWarnings (m0 :: m1 :: rest) connections =
          if (connectedSet (m0 :: m1 :: rest) m0 (List.mem_cons_self _ _)
              connections).length < (m0 :: m1 :: rest).length then
            [ValidationWarning.disconnectedModules ((m0 :: m1 :: rest).length -
              (connectedSet (m0 :: m1 :: rest) m0 (List.mem_cons_self _ _)
                connections).length)]
          else [] := rfl
      rw [hred] at hw
      by_cases hlen : (connectedSet (m0 :: m1 :: rest) m0 (List.mem_cons_self _ _)
          connections).length < (m0 :: m1 :: rest).length
      · by_contra hall
        push_neg at hall
        have hsub : ∀ x ∈ (m0 :: m1 :: rest).map (fun m => m.id),
            x ∈ connectedSet (m0 :: m1 :: rest) m0 (List.mem_cons_self _ _)
              connections := by
          intro x hx
          rcases List.mem_map.mp hx with ⟨m, hm, rfl⟩
          exact connectedSet_complete _ _ _ _ _ (hall m hm)
        have hle : ((m0 :: m1 :: rest).map (fun m => m.id)).length ≤
            (connectedSet (m0 :: m1 :: rest) m0 (List.mem_cons_self _ _)
              connections).length :=
          nodup_subset_length_le hnodup (connectedSet_nodup _ _ _ _) hsub
        rw [List.length_map] at hle
        omega
      · rw [if_neg hlen] at hw
        exact absurd rfl hw
  · intro hlen
    rw [validateHabitat_warnings]
    match modules, hlen with
    | [], _ => rfl
    | [m], _ => rfl
    | m0 :: m1 :: rest, hlen => simp at hlen
  · intro a b c conn hmods hconns hm1 hm2 hca hcb hba
    subst hmods
    subst hconns
    exact threeModuleWarning a b c conn hm1 hm2 hba

/-- Module instance `A` placed at the origin. -/
noncomputable def modA : ModuleInstance :=
  { id := "A", definitionId := "central-hub", position := ⟨0, 0, 0⟩,
    rotation := ⟨0, 0, 0⟩ }

/-- Module instance `B` placed far along the x axis. -/
noncomputable def modB : ModuleInstance :=
  { id := "B", definitionId := "central-hub", position := ⟨100, 0, 0⟩,
    rotation := ⟨0, 0, 0⟩ }

/-- Module instance `C` placed even further along the x axis. -/
noncomputable def modC : ModuleInstance :=
  { id := "C", definitionId := "central-hub", position := ⟨200, 0, 0⟩,
    rotation := ⟨0, 0, 0⟩ }

/-- The stored connection between `A` and `B`. -/
def connAB : Connection :=
  { id := "cAB", moduleId1 := "A", pointId1 := "east",
    moduleId2 := "B", pointId2 := "west" }

/-- The stored connection between `A` and `C`. -/
def connAC : Connection :=
  { id := "cAC", moduleId1 := "A", pointId1 := "east",
    moduleId2 := "C", pointId2 := "west" }

/-- Witness for the amended claim C6: modules `A`, `B`, `C` with only `A`-`B`
connected yield exactly the one count-carrying disconnection warning. -/
theorem claim_C6_witness :
    (validateHabitat [modA, modB, modC] [connAB]).warnings =
      [ValidationWarning.disconnectedModules 1] := by
  have h := claim_C6 [modA, modB, modC] [connAB]
    (by simp only [modA, modB, modC, List.map_cons, List.map_nil]; decide)
  exact h.2.2 modA modB modC connAB rfl rfl rfl rfl
    (by simp [modA, modC]) (by simp [modB, modC]) (by simp [modA, modB])

/-- Counterexample to claim C6 as stated: with `C` isolated (connection
`A`-`B`) and with `B` isolated (connection `A`-`C`) the emitted warnings are
the same single `disconnected_modules` value carrying only the count `1` — the
warning cannot reference the isolated module `C`, because it is identical when
the isolated module is `B` instead. -/
theorem claim_C6_counterexample :
    (validateHabitat [modA, modB, modC] [connAB]).warnings =
      [ValidationWarning.disconnectedModules 1] ∧
    (validateHabitat [modA, modC, modB] [connAC]).warnings =
      [ValidationWarning.disconnectedModules 1] := by
  constructor
  · exact threeModuleWarning modA modB modC connAB rfl rfl (by simp [modA, modB])
  · exact threeModuleWarning modA modC modB connAC rfl rfl (by simp [modA, modC])

end HabitatBuilder

namespace HabitatBuilder

/-- Normalizing a vector that already has unit square sum returns it. -/
theorem normalize_unit (v : Vec3) (h : v.x * v.x + v.y * v.y + v.z * v.z = 1) :
    normalize v = v := by
  unfold normalize
  rw [h, Real.sqrt_one]
  simp

/-- Evaluation rule: `canConnect` on a pair passing all three checks. -/
theorem canConnect_valid (p q : WorldPoint)
    (ht : q.type ∈ connectionRules p.type)
    (hd : ¬ distance3D p.worldPosition q.worldPosition > MAX_CONNECTION_DISTANCE)
    (ha : ¬ dotProduct p.worldNormal q.worldNormal > -0.7) :
    canConnect p q = ⟨true, ConnectReason.valid⟩ := by
  unfold canConnect
  rw [if_neg (not_not_intro ht), if_neg hd, if_neg ha]

/-- Evaluation rule: `canConnect` on a type-compatible pair that is too far. -/
theorem canConnect_far (p q : WorldPoint)
    (ht : q.type ∈ connectionRules p.type)
    (hd : distance3D p.worldPosition q.worldPosition > MAX_CONNECTION_DISTANCE) :
    canConnect p q =
      ⟨false, ConnectReason.tooFar (distance3D p.worldPosition q.worldPosition)⟩ := by
  unfold canConnect
  rw [if_neg (not_not_intro ht), if_pos hd]

/-- The target storage module of the potential-connection scenario. -/
noncomputable def targT : ModuleInstance :=
  { id := "T", definitionId := "storage", position := ⟨0, 0, 0⟩,
    rotation := ⟨0, 0, 0⟩ }

/-- Existing storage module in front of the target, turned around by pi. -/
noncomputable def exE1 : ModuleInstance :=
  { id := "E1", definitionId := "storage", position := ⟨0, 0, 6.2⟩,
    rotation := ⟨0, Real.pi, 0⟩ }

/-- Existing storage module behind the target. -/
noncomputable def exE2 : ModuleInstance :=
  { id := "E2", definitionId := "storage", position := ⟨0, 0, -6.2⟩,
    rotation := ⟨0, 0, 0⟩ }

/-- World-space front point of the target. -/
noncomputable def wTfront : WorldPoint :=
  { id := "front", type := "structural", position := ⟨0, 0, 3.0⟩,
    normal := ⟨0, 0, 1⟩, worldPosition := ⟨0, 0, 3.0⟩,
    worldNormal := ⟨0, 0, 1⟩, moduleId := "T" }

/-- World-space back point of the target. -/
noncomputable def wTback : WorldPoint :=
  { id := "back", type := "structural", position := ⟨0, 0, -3.0⟩,
    normal := ⟨0, 0, -1⟩, worldPosition := ⟨0, 0, -3.0⟩,
    worldNormal := ⟨0, 0, -1⟩, moduleId := "T" }

/-- World-space front point of the turned module `E1`, facing the target. -/
noncomputable def wE1front : WorldPoint :=
  { id := "front", type := "structural", position := ⟨0, 0, 3.0⟩,
    normal := ⟨0, 0, 1⟩, worldPosition := ⟨0, 0, 3.2⟩,
    worldNormal := ⟨0, 0, -1⟩, moduleId := "E1" }

/-- World-space back point of the turned module `E1`. -/
noncomputable def wE1back : WorldPoint :=
  { id := "back", type := "structural", position := ⟨0, 0, -3.0⟩,
    normal := ⟨0, 0, -1⟩, worldPosition := ⟨0, 0, 9.2⟩,
    worldNormal := ⟨0, 0, 1⟩, moduleId := "E1" }

/-- World-space front point of module `E2`, facing the target's back. -/
noncomputable def wE2front : WorldPoint :=
  { id := "front", type := "structural", position := ⟨0, 0, 3.0⟩,
    normal := ⟨0, 0, 1⟩, worldPosition := ⟨0, 0, -3.2⟩,
    worldNormal := ⟨0, 0, 1⟩, moduleId := "E2" }

/-- World-space back point of module `E2`. -/
noncomputable def wE2back : WorldPoint :=
  { id := "back", type := "structural", position := ⟨0, 0, -3.0⟩,
    normal := ⟨0, 0, -1⟩, worldPosition := ⟨0, 0, -9.2⟩,
    worldNormal := ⟨0, 0, -1⟩, moduleId := "E2" }

/-- World points of the target storage module. -/
theorem targT_points : getWorldConnectionPoints targT = [wTfront, wTback] := by
  rw [show getWorldConnectionPoints targT =
    (storage.connectionPoints.map fun point =>
      { id := point.id
        type := point.type
        position := point.position
        normal := point.normal
        worldPosition := transformPoint point.position targT.position targT.rotation
        worldNormal := transformNormal point.normal targT.rotation
        moduleId := targT.id }) from rfl]
  simp only [storage, targT, wTfront, wTback, List.map_cons, List.map_nil]
  norm_num [transformPoint, transformNormal, normalize_unit]

/-- World points of the turned existing module `E1`. -/
theorem exE1_points : getWorldConnectionPoints exE1 = [wE1front, wE1back] := by
  rw [show getWorldConnectionPoints exE1 =
    (storage.connectionPoints.map fun point =>
      { id := point.id
        type := point.type
        position := point.position
        normal := point.normal
        worldPosition := transformPoint point.position exE1.position exE1.rotation
        worldNormal := transformNormal point.normal exE1.rotation
        moduleId := exE1.id }) from rfl]
  simp only [storage, exE1, wE1front, wE1back, List.map_cons, List.map_nil]
  norm_num [transformPoint, transformNormal, normalize_unit, Real.cos_pi, Real.sin_pi]

/-- World points of the existing module `E2`. -/
theorem exE2_points : getWorldConnectionPoints exE2 = [wE2front, wE2back] := by
  rw [show getWorldConnectionPoints exE2 =
    (storage.connectionPoints.map fun point =>
      { id := point.id
        type := point.type
        position := point.position
        normal := point.normal
        worldPosition := transformPoint point.position exE2.position exE2.rotation
        worldNormal := transformNormal point.normal exE2.rotation
        moduleId := exE2.id }) from rfl]
  simp only [storage, exE2, wE2front, wE2back, List.map_cons, List.map_nil]
  norm_num [transformPoint, transformNormal, normalize_unit]

end HabitatBuilder

namespace HabitatBuilder

/-- The accepted front pair is exactly `0.2` meters apart. -/
theorem dist_TF_E1F : distance3D wTfront.worldPosition wE1front.worldPosition = 0.2 :=
  distance3D_eq_of_sq (by norm_num) (by norm_num [wTfront, wE1front])

/-- The accepted back pair is exactly `0.2` meters apart. -/
theorem dist_TB_E2F : distance3D wTback.worldPosition wE2front.worldPosition = 0.2 :=
  distance3D_eq_of_sq (by norm_num) (by norm_num [wTback, wE2front])

/-- The target front point mates with the facing point of `E1`. -/
theorem cc_TF_E1F : (canConnect wTfront wE1front).canConnect = true := by
  rw [canConnect_valid wTfront wE1front (by simp [wTfront, wE1front, connectionRules])
    (by rw [dist_TF_E1F, MAX_CONNECTION_DISTANCE]; norm_num)
    (by norm_num [dotProduct, wTfront, wE1front])]

/-- The target back point mates with the facing point of `E2`. -/
theorem cc_TB_E2F : (canConnect wTback wE2front).canConnect = true := by
  rw [canConnect_valid wTback wE2front (by simp [wTback, wE2front, connectionRules])
    (by rw [dist_TB_E2F, MAX_CONNECTION_DISTANCE]; norm_num)
    (by norm_num [dotProduct, wTback, wE2front])]

/-- All remaining point pairs of the scenario are too far apart. -/
theorem cc_TF_E1B : (canConnect wTfront wE1back).canConnect = false := by
  rw [canConnect_far wTfront wE1back (by simp [wTfront, wE1back, connectionRules])
    (by rw [show distance3D wTfront.worldPosition wE1back.worldPosition = 6.2 from
        distance3D_eq_of_sq (by norm_num) (by norm_num [wTfront, wE1back]),
      MAX_CONNECTION_DISTANCE]; norm_num)]

/-- The target back point is far from the back point of `E1`. -/
theorem cc_TB_E1F : (canConnect wTback wE1front).canConnect = false := by
  rw [canConnect_far wTback wE1front (by simp [wTback, wE1front, connectionRules])
    (by rw [show distance3D wTback.worldPosition wE1front.worldPosition = 6.2 from
        distance3D_eq_of_sq (by norm_num) (by norm_num [wTback, wE1front]),
      MAX_CONNECTION_DISTANCE]; norm_num)]

/-- The target back point is far from the turned back point of `E1`. -/
theorem cc_TB_E1B : (canConnect wTback wE1back).canConnect = false := by
  rw [canConnect_far wTback wE1back (by simp [wTback, wE1back, connectionRules])
    (by rw [show distance3D wTback.worldPosition wE1back.worldPosition = 12.2 from
        distance3D_eq_of_sq (by norm_num) (by norm_num [wTback, wE1back]),
      MAX_CONNECTION_DISTANCE]; norm_num)]

/-- The target front point is far from the front point of `E2`. -/
theorem cc_TF_E2F : (canConnect wTfront wE2front).canConnect = false := by
  rw [canConnect_far wTfront wE2front (by simp [wTfront, wE2front, connectionRules])
    (by rw [show distance3D wTfront.worldPosition wE2front.worldPosition = 6.2 from
        distance3D_eq_of_sq (by norm_num) (by norm_num [wTfront, wE2front]),
      MAX_CONNECTION_DISTANCE]; norm_num)]

/-- The target front point is far from the back point of `E2`. -/
theorem cc_TF_E2B : (canConnect wTfront wE2back).canConnect = false := by
  rw [canConnect_far wTfront wE2back (by simp [wTfront, wE2back, connectionRules])
    (by rw [show distance3D wTfront.worldPosition wE2back.worldPosition = 12.2 from
        distance3D_eq_of_sq (by norm_num) (by norm_num [wTfront, wE2back]),
      MAX_CONNECTION_DISTANCE]; norm_num)]

/-- The target back point is far from the back point of `E2`. -/
theorem cc_TB_E2B : (canConnect wTback wE2back).canConnect = false := by
  rw [canConnect_far wTback wE2back (by simp [wTback, wE2back, connectionRules])
    (by rw [show distance3D wTback.worldPosition wE2back.worldPosition = 6.2 from
        distance3D_eq_of_sq (by norm_num) (by norm_num [wTback, wE2back]),
      MAX_CONNECTION_DISTANCE]; norm_num)]

/-- The candidate the scenario accepts first in enumeration order. -/
noncomputable def pcFront : PotentialConnection :=
  { targetPoint := wTfront, existingPoint := wE1front, existingModule := exE1,
    distance := 0.2 }

/-- The candidate the scenario accepts second in enumeration order. -/
noncomputable def pcBack : PotentialConnection :=
  { targetPoint := wTback, existingPoint := wE2front, existingModule := exE2,
    distance := 0.2 }

/-- The candidate array of the scenario, in enumeration order. -/
theorem candidates_eval :
    potentialConnectionCandidates targT ⟨0, 0, 0⟩ [exE1, exE2] = [pcFront, pcBack] := by
  have hbase : potentialConnectionCandidates targT ⟨0, 0, 0⟩ [exE1, exE2] =
      [exE1, exE2].flatMap (fun existingModule =>
        if existingModule.id = targT.id then []
        else
          (getWorldConnectionPoints targT).flatMap fun targetPoint =>
            (getWorldConnectionPoints existingModule).filterMap fun existingPoint =>
              if (canConnect targetPoint existingPoint).canConnect then
                some { targetPoint := targetPoint, existingPoint := existingPoint,
                       existingModule := existingModule,
                       distance := distance3D targetPoint.worldPosition
                         existingPoint.worldPosition }
              else none) := rfl
  rw [hbase]
  simp only [List.flatMap_cons, List.flatMap_nil, List.append_nil]
  rw [if_neg (show ¬ exE1.id = targT.id by simp [exE1, targT]),
    if_neg (show ¬ exE2.id = targT.id by simp [exE2, targT]),
    targT_points, exE1_points, exE2_points]
  simp only [List.flatMap_cons, List.flatMap_nil, List.filterMap_cons,
    List.filterMap_nil, cc_TF_E1F, cc_TF_E1B, cc_TB_E1F, cc_TB_E1B,
    cc_TF_E2F, cc_TF_E2B, cc_TB_E2F, cc_TB_E2B, if_true, if_false,
    dist_TF_E1F, dist_TB_E2F, List.append_nil, List.nil_append]
  rfl

end HabitatBuilder

namespace HabitatBuilder

/-- The distance comparator of `findPotentialConnections` is transitive. -/
theorem leDist_trans : ∀ a b c : PotentialConnection,
    (fun a b : PotentialConnection => a.distance ≤ b.distance : PotentialConnection →
      PotentialConnection → Bool) a b = true →
    (fun a b : PotentialConnection => a.distance ≤ b.distance : PotentialConnection →
      PotentialConnection → Bool) b c = true →
    (fun a b : PotentialConnection => a.distance ≤ b.distance : PotentialConnection →
      PotentialConnection → Bool) a c = true := by
  intro a b c hab hbc
  simp only [decide_eq_true_eq] at hab hbc ⊢
  exact le_trans hab hbc

/-- The distance comparator of `findPotentialConnections` is total. -/
theorem leDist_total : ∀ a b : PotentialConnection,
    ((fun a b : PotentialConnection => a.distance ≤ b.distance : PotentialConnection →
      PotentialConnection → Bool) a b ||
     (fun a b : PotentialConnection => a.distance ≤ b.distance : PotentialConnection →
      PotentialConnection → Bool) b a) = true := by
  intro a b
  simp only [Bool.or_eq_true, decide_eq_true_eq]
  exact le_total a.distance b.distance

/-- The sorted output of the scenario: the stable sort keeps the two
equidistant candidates in enumeration order. -/
theorem findPotential_eval :
    findPotentialConnections targT ⟨0, 0, 0⟩ [exE1, exE2] = [pcFront, pcBack] := by
  unfold findPotentialConnections
  rw [candidates_eval]
  apply List.mergeSort_of_sorted
  refine List.Pairwise.cons ?_ (List.Pairwise.cons
    (fun c hc => absurd hc (List.not_mem_nil _)) List.Pairwise.nil)
  intro b hb
  rw [List.mem_singleton] at hb
  subst hb
  rw [decide_eq_true_eq]
  show (0.2 : ℝ) ≤ 0.2
  exact le_refl _

/-- Claim C3 as amended: `findPotentialConnections` returns exactly the pairs
accepted by `canConnect` (a permutation of the enumerated candidate array),
sorted ascending by the Euclidean distance of their world positions; ties are
kept in the enumeration order of the candidate array (existing modules in list
order, then target points, then existing points) by sort stability — not
reordered by point-id lexical order. -/
theorem claim_C3 (targetModule : ModuleInstance) (targetPosition : Vec3)
    (existingModules : List ModuleInstance) :
    (findPotentialConnections targetModule targetPosition existingModules).Pairwise
      (fun a b => a.distance ≤ b.distance) ∧
    (findPotentialConnections targetModule targetPosition existingModules).Perm
      (potentialConnectionCandidates targetModule targetPosition existingModules) ∧
    (∀ a b : PotentialConnection,
      [a, b].Sublist
        (potentialConnectionCandidates targetModule targetPosition existingModules) →
      a.distance ≤ b.distance →
      [a, b].Sublist
        (findPotentialConnections targetModule targetPosition existingModules)) := by
  refine ⟨?_, ?_, ?_⟩
  · exact (List.sorted_mergeSort leDist_trans leDist_total
      (potentialConnectionCandidates targetModule targetPosition existingModules)).imp
      (fun h => of_decide_eq_true h)
  · exact List.mergeSort_perm _ _
  · intro a b hsub hab
    exact List.sublist_mergeSort leDist_trans leDist_total
      (List.Pairwise.cons (fun x hx => by
          rw [List.mem_singleton] at hx
          subst hx
          exact decide_eq_true hab)
        (List.Pairwise.cons (fun c hc => absurd hc (List.not_mem_nil _))
          List.Pairwise.nil))
      hsub

/-- Witness for the amended claim C3: in the two-candidate scenario the tied
pair, listed in enumeration order in the candidate array, stays in that order
in the sorted output. -/
theorem claim_C3_witness :
    [pcFront, pcBack].Sublist (findPotentialConnections targT ⟨0, 0, 0⟩ [exE1, exE2]) := by
  apply (claim_C3 targT ⟨0, 0, 0⟩ [exE1, exE2]).2.2 pcFront pcBack
  · rw [candidates_eval]
  · show (0.2 : ℝ) ≤ 0.2
    exact le_refl _

/-- Counterexample to claim C3 as stated: the scenario has exactly two accepted
pairs, both at distance `0.2`; the output lists the pair with target point id
`front` before the pair with target point id `back` (enumeration order over
the existing modules), although `back` is lexically smaller than `front` — so
equidistant candidates are not ordered by point-id lexical order. -/
theorem claim_C3_counterexample :
    ((findPotentialConnections targT ⟨0, 0, 0⟩ [exE1, exE2]).map
      (fun pc => (pc.targetPoint.id, pc.existingPoint.id, pc.existingModule.id))) =
      [("front", "front", "E1"), ("back", "front", "E2")] ∧
    ((findPotentialConnections targT ⟨0, 0, 0⟩ [exE1, exE2]).map
      (fun pc => pc.distance)) = [0.2, 0.2] ∧
    ("back" : String) < "front" := by
  rw [findPotential_eval]
  refine ⟨?_, ?_, ?_⟩
  · simp [pcFront, pcBack, wTfront, wTback, wE1front, wE2front, exE1, exE2]
  · simp [pcFront, pcBack]
  · rw [String.lt_iff_toList_lt]
    decide

end HabitatBuilder
